import Mathlib

/-!
Shallow embedding of the "deep-plex" research-assistant backend.

The embedded code is `src/app/lib/models/unified-research-agent.ts`
(class `UnifiedResearchAgent`) and the `LangChainAgent` search client
(`src/unnamed/part_006`).  External effects (HTTP search calls, LLM chat
calls, wall-clock readings) are modelled as oracle inputs: each definition
takes the outcome of the corresponding network call as an explicit
argument, so that the embedded control flow is a total function of those
outcomes.  JavaScript `a || b` defaulting (where `undefined`, `null` and
`""` are falsy) is modelled by `jsOr`; thrown/caught exceptions are
modelled with `Except`/explicit outcome constructors.
-/

namespace DeepPlex

/-- JS `a || b` for an optional string field: `undefined`/`null` and the
empty string are falsy, so both fall through to the default. -/
def jsOr (a : Option String) (b : String) : String :=
  match a with
  | some s => if s = "" then b else s
  | none => b

/-- A raw search-provider result object.  Only the fields the agent reads
are modelled; each is optional because the provider JSON may omit it. -/
structure RawResult where
  title : Option String := none
  url : Option String := none
  snippet : Option String := none
  description : Option String := none
  markdown : Option String := none
  metaTitle : Option String := none
  metaSourceURL : Option String := none
deriving Repr, DecidableEq

/-- The `Source` shape produced by `UnifiedResearchAgent.searchWeb`
(`{title, url, snippet}`). -/
structure Source where
  title : String
  url : String
  snippet : String
deriving Repr, DecidableEq

namespace UnifiedResearchAgent

/-- Outcome of the one axios POST inside `searchWeb`:
`response (some data)` models a response whose `data.data` is an array
(`data` being the list of raw results), `response none` models a
response whose body lacks that array shape, and `failure` models a
thrown error (network failure, timeout, abort, non-2xx status). -/
inductive SearchOutcome
  | response (data : Option (List RawResult))
  | failure
deriving Repr, DecidableEq

/-- The per-result mapping inside `searchWeb`:
`{title: result.title || 'Untitled', url: result.url || '',
snippet: result.snippet || result.description || ''}`. -/
def mkSource (r : RawResult) : Source :=
  { title := jsOr r.title "Untitled"
    url := jsOr r.url ""
    snippet := jsOr r.snippet (jsOr r.description "") }

/-- Return shape of `UnifiedResearchAgent.searchWeb`. -/
structure SearchWebResult where
  results : List RawResult
  sources : List Source
deriving Repr, DecidableEq

/-- `UnifiedResearchAgent.searchWeb` (unified-research-agent.ts:149-207).
On a response whose `data.data` is an array it maps each raw result to a
`Source` and filters out entries with a falsy (empty) URL; on an invalid
body or any thrown error it returns `{results: [], sources: []}` — the
function is total, mirroring that the TS code catches every error. -/
def searchWeb (outcome : SearchOutcome) : SearchWebResult :=
  match outcome with
  | .response (some results) =>
      { results := results
        sources := (results.map mkSource).filter (fun s => s.url != "") }
  | .response none => { results := [], sources := [] }
  | .failure => { results := [], sources := [] }

/-- A planned SERP query `{query, researchGoal}`. -/
structure SerpQuery where
  query : String
  researchGoal : String
deriving Repr, DecidableEq

/-- Outcome of the `perplexityClient.chat` call plus JSON extraction in
`generateSerpQueries`: `queries qs` models a model reply from which a JSON
object with a `queries` array was extracted (`qs` its entries);
`parseFailure` models a reply that is not valid JSON or lacks a `queries`
array (the inner `catch`); `chatError` models the chat call itself
throwing (the outer `catch`). -/
inductive PlanOutcome
  | chatError
  | parseFailure
  | queries (qs : List SerpQuery)
deriving Repr, DecidableEq

/-- The fallback query built in both `catch` arms of
`generateSerpQueries`. -/
def fallbackSerpQuery (query : String) : SerpQuery :=
  { query := query, researchGoal := "Directly answering the user's original query" }

/-- `UnifiedResearchAgent.generateSerpQueries`
(unified-research-agent.ts:212-286).  On a parsed `queries` array it
returns `parsed.queries.slice(0, numQueries)`; on a parse failure or a
chat error it returns the single fallback query.  Total: no error
propagates to the caller. -/
def generateSerpQueries (query : String) (numQueries : Nat) (outcome : PlanOutcome) :
    List SerpQuery :=
  match outcome with
  | .queries qs => qs.take numQueries
  | .parseFailure => [fallbackSerpQuery query]
  | .chatError => [fallbackSerpQuery query]

/-- A follow-up question `{query, goal}` suggested by the distiller. -/
structure FollowUpQuestion where
  query : String
  goal : String
deriving Repr, DecidableEq

/-- Outcome of the chat call plus JSON extraction in `processSerpResult`:
`parsed ls fs` models a reply parsed into an object with both a
`learnings` array and a `followUpQuestions` array; `parseFailure` covers
invalid JSON or a missing array; `chatError` covers the chat call
throwing. -/
inductive DistillOutcome
  | chatError
  | parseFailure
  | parsed (learnings : List String) (followUpQuestions : List FollowUpQuestion)
deriving Repr, DecidableEq

/-- Return shape of `processSerpResult`; `calledModel` records whether the
chat call was issued (false exactly on the empty-results short circuit). -/
structure SerpProcessOutput where
  learnings : List String
  followUpQuestions : List FollowUpQuestion
  calledModel : Bool
deriving Repr, DecidableEq

/-- `UnifiedResearchAgent.processSerpResult`
(unified-research-agent.ts:291-382).  Empty (or missing) results
short-circuit to empty arrays without a model call; a successful parse is
truncated with `slice(0, numLearnings)` / `slice(0, numFollowUpQuestions)`;
parse failures and chat errors degrade to empty arrays.  Total. -/
def processSerpResult (_query : String) (results : List RawResult)
    (numLearnings numFollowUpQuestions : Nat) (outcome : DistillOutcome) :
    SerpProcessOutput :=
  if results.isEmpty then
    { learnings := [], followUpQuestions := [], calledModel := false }
  else
    match outcome with
    | .parsed ls fs =>
        { learnings := ls.take numLearnings
          followUpQuestions := fs.take numFollowUpQuestions
          calledModel := true }
    | .parseFailure => { learnings := [], followUpQuestions := [], calledModel := true }
    | .chatError => { learnings := [], followUpQuestions := [], calledModel := true }

/-- Outcome of a plain chat call that is caught and replaced by a
fallback string on error. -/
inductive ChatOutcome
  | reply (text : String)
  | chatError
deriving Repr, DecidableEq

/-- `UnifiedResearchAgent.generateFinalReport`
(unified-research-agent.ts:435-479).  On a chat error it builds the
fallback markdown report from the accumulated learnings and sources. -/
def generateFinalReport (query : String) (learnings : List String)
    (sources : List Source) (outcome : ChatOutcome) : String :=
  match outcome with
  | .reply t => t
  | .chatError =>
      "# Research Report: " ++ query ++
      "\n\n## Summary\n\nThere was an error generating the complete research report.\n\n## Raw Findings\n\n" ++
      String.intercalate "\n" (learnings.map (fun l => "- " ++ l)) ++
      "\n\n## Sources\n\n" ++
      String.intercalate "\n" (sources.map (fun s => "- [" ++ s.title ++ "](" ++ s.url ++ ")"))

/-- `UnifiedResearchAgent.generateResearchReport`
(unified-research-agent.ts:387-430), reduced to its outcome: the chat
reply, or the apologetic fallback content on a caught error. -/
def generateResearchReport (query : String) (outcome : ChatOutcome) : String :=
  match outcome with
  | .reply t => t
  | .chatError =>
      "Sorry, I encountered an error while generating a research report for: \"" ++
      query ++ "\". Please try again or refine your query."

end UnifiedResearchAgent

/-- JS `a || b` on a plain string: the empty string falls through. -/
def jsOrStr (a b : String) : String :=
  if a = "" then b else a

/-- First-occurrence `String.prototype.replace(pat, '')`: JS `replace`
with a string pattern removes only the first occurrence. -/
def replaceFirst (s pat : String) : String :=
  match s.splitOn pat with
  | [] => s
  | [_] => s
  | a :: rest => a ++ String.intercalate pat rest

namespace LangChainAgent

/-- `const maxRetries = 2` at the top of `LangChainAgent.searchWeb`. -/
def maxRetries : Nat := 2

/-- Return shape of `LangChainAgent.searchWeb`:
`{results: string, success: bool, sources: string[]}`. -/
structure LCSearchResult where
  results : String
  success : Bool
  sources : List String
deriving Repr, DecidableEq

/-- Outcome of one axios POST attempt inside the retry loop:
`ok data` is a 2xx response whose `data.data` is the array `data`
(an empty list also models a body without that array — both take the
same empty-results branch); `errStatus status altData` is a thrown
error carrying `error.response.status = status`, where for
endpoint-not-found errors `altData` is the alternative-endpoint
response body (`none` = the alternative attempt failed or threw);
`errNetwork` is a thrown error with no response (network failure or
timeout). -/
inductive LCAttempt
  | ok (data : List RawResult)
  | errStatus (status : Nat) (altData : Option (List RawResult))
  | errNetwork
deriving Repr, DecidableEq

/-- One step of the retry loop either returns a result or continues with
an incremented retry counter. -/
inductive LCStep
  | done (r : LCSearchResult)
  | next (newRetries : Nat)
deriving Repr, DecidableEq

/-- The per-result section of the main-endpoint formatter
(part_006:316-329), including the `new URL(url).hostname` domain
derivation; `none` models that `new URL` threw on an unparsable URL. -/
def lcFormatSection (hostname : String → Option String) (index : Nat) (r : RawResult) :
    Option String :=
  let content := jsOr r.markdown (jsOr r.description "No content available")
  let title := jsOr r.title (jsOr r.metaTitle "Untitled")
  let url := jsOr r.url (jsOr r.metaSourceURL "#")
  let n := index + 1
  (if url ≠ "#" then (hostname url).map (fun h => replaceFirst h "www.")
   else pure "unknown").map fun domain =>
    s!"\n## {n}. {title}\n**Source:** [{url}]({url}) ({domain})\n{content}\n            "

/-- The main-endpoint result formatter: sections joined with `'\n\n'`. -/
def lcFormatMain (hostname : String → Option String) (data : List RawResult) :
    Option String := do
  let sections ← data.enum.mapM (fun p => lcFormatSection hostname p.1 p.2)
  pure (String.intercalate "\n\n" sections)

/-- The alternative-endpoint result formatter (part_006:412-422); it has
no domain derivation, so it cannot throw. -/
def lcFormatAlt (data : List RawResult) : String :=
  String.intercalate "\n\n" (data.enum.map fun p =>
    let content := jsOr p.2.markdown (jsOr p.2.description "No content available")
    let title := jsOr p.2.title (jsOr p.2.metaTitle "Untitled")
    let url := jsOr p.2.url (jsOr p.2.metaSourceURL "#")
    let n := p.1 + 1
    s!"\n## {n}. {title}\n**Source:** [{url}]({url})\n{content}\n                  ")

/-- The fallback returned after all retries fail (part_006:486-495). -/
def lcUnavailable (query : String) : LCSearchResult :=
  { results :=
      "## Web Search Unavailable\nUnfortunately, I couldn't perform a live web search at this time. I'll provide information based on my knowledge.\n\nThe query was: " ++
      query ++
      "\n\nThis is based on my existing knowledge rather than real-time web search results."
    success := false
    sources := [] }

/-- The authentication-failure result (part_006:456-466). -/
def lcAuthError (query : String) : LCSearchResult :=
  { results :=
      "## API Authentication Error\n              \nUnfortunately, there was an issue authenticating with the web search service. This might be due to an invalid API key or expired credentials.\n\nThe query was: " ++
      query ++
      "\n\nThis report will be based on AI knowledge rather than real-time web search results."
    success := false
    sources := [] }

/-- The shared retry check at the bottom of the catch block
(part_006:477-495): retry while `retries < maxRetries`, otherwise return
the unavailable fallback. -/
def lcCommonRetry (query : String) (retries mRetries : Nat) : LCStep :=
  if retries < mRetries then .next (retries + 1) else .done (lcUnavailable query)

/-- The success result built from a non-empty `data.data` array
(part_006:296-335): sources are `data.map(r => r.url || '').filter(Boolean)`. -/
def lcSuccess (txt : String) (data : List RawResult) : LCSearchResult :=
  { results := jsOrStr txt "No relevant results found."
    success := true
    sources := (data.map (fun r => jsOr r.url "")).filter (fun u => u != "") }

/-- One iteration of the `while (retries <= maxRetries)` loop in
`LangChainAgent.searchWeb` (part_006:261-497), given the outcome of this
iteration's HTTP attempt.  Branches: non-empty 2xx data succeeds (unless
URL formatting throws, which falls into the generic retry path);
empty/invalid 2xx retries then degrades to the no-results message;
endpoint-not-found (404) errors first try the alternative endpoint;
401/403 retries at most once then returns the auth-error result; every
other error takes the shared retry check. -/
def lcIteration (query : String) (hostname : String → Option String)
    (outcome : LCAttempt) (retries mRetries : Nat) : LCStep :=
  match outcome with
  | .ok data =>
      if data.length > 0 then
        match lcFormatMain hostname data with
        | some txt => .done (lcSuccess txt data)
        | none => lcCommonRetry query retries mRetries
      else
        if retries < mRetries then .next (retries + 1)
        else .done { results := "The web search did not yield any relevant results for this query."
                     success := false
                     sources := [] }
  | .errStatus status altData =>
      if status = 404 then
        match altData with
        | some altList =>
            if altList.length > 0 then
              .done (lcSuccess (lcFormatAlt altList) altList)
            else lcCommonRetry query retries mRetries
        | none => lcCommonRetry query retries mRetries
      else if status = 401 ∨ status = 403 then
        if retries < 1 then .next (retries + 1)
        else .done (lcAuthError query)
      else lcCommonRetry query retries mRetries
  | .errNetwork => lcCommonRetry query retries mRetries

/-- The retry loop, fuelled by the remaining admissible iterations
(`maxRetries + 1 - retries`); exhausting the fuel corresponds to the
`while` guard failing, whose unreachable fall-through return the TS code
spells out (part_006:499-504).  Also counts the attempts made. -/
def lcSearchLoop (query : String) (hostname : String → Option String)
    (attempt : Nat → LCAttempt) (mRetries : Nat) :
    Nat → Nat → Nat → LCSearchResult × Nat
  | 0, _, attemptsMade =>
      ({ results := "Failed to perform web search after multiple attempts."
         success := false
         sources := [] }, attemptsMade)
  | fuel + 1, retries, attemptsMade =>
      match lcIteration query hostname (attempt attemptsMade) retries mRetries with
      | .done r => (r, attemptsMade + 1)
      | .next newRetries =>
          lcSearchLoop query hostname attempt mRetries fuel newRetries (attemptsMade + 1)

/-- `LangChainAgent.searchWeb` (part_006:257-505): runs the retry loop
from `retries = 0` with `maxRetries = 2`, returning the result together
with the number of HTTP attempts made against the primary endpoint.
The function is total: search failure never raises to the caller. -/
def searchWeb (query : String) (hostname : String → Option String)
    (attempt : Nat → LCAttempt) : LCSearchResult × Nat :=
  lcSearchLoop query hostname attempt maxRetries (maxRetries + 1) 0 0

end LangChainAgent

/-- A frame of the newline-delimited JSON wire protocol, as yielded by the
`UnifiedResearchAgent` generators (one constructor per `type` tag that the
agent emits). -/
inductive Event
  | reasoningTrace (content : String)
  | progressFrame (progress : Nat) (status : String)
  | searchResultsFrame (content : String)
  | sourceUpdate (url : String) (data : Source)
  | sourcesFrame (sources : List Source)
  | learningsFrame (content : String)
  | contentChunk (content : String)
  | contentFrame (content : String)
  | errorFrame (content : String)
  | completeFrame (status : String)
deriving Repr, DecidableEq

/-- Whether a frame is a `sources` or `source_update` frame. -/
def Event.isSourcesLike : Event → Bool
  | .sourcesFrame _ => true
  | .sourceUpdate _ _ => true
  | _ => false

/-- Whether a frame is a `content` frame. -/
def Event.isContentFrame : Event → Bool
  | .contentFrame _ => true
  | _ => false

/-- Whether a frame is a `content_chunk` frame. -/
def Event.isContentChunk : Event → Bool
  | .contentChunk _ => true
  | _ => false

/-- Whether a frame is an `error` frame. -/
def Event.isErrorFrame : Event → Bool
  | .errorFrame _ => true
  | _ => false

/-- The URLs carried by the `source_update` frames of a stream, in
emission order. -/
def sourceUpdateUrls (evs : List Event) : List String :=
  evs.filterMap fun e =>
    match e with
    | .sourceUpdate url _ => some url
    | _ => none

namespace UnifiedResearchAgent

/-- `getModelDisplayName` (unified-research-agent.ts:555-560);
`modelKey.includes('deepseek')` is modelled via `splitOn`. -/
def getModelDisplayName (modelKey : String) : String :=
  if modelKey = "claude-3.7-sonnet" then "Claude 3.7 Sonnet"
  else if (modelKey.splitOn "deepseek").length > 1 then "DeepSeek R1 Distill"
  else modelKey

/-- The per-result section of `formatSearchResults`
(unified-research-agent.ts:484-499), including the
`new URL(url).hostname` domain derivation; `none` models `new URL`
throwing on an unparsable URL (the hostname oracle stands for the URL
library). -/
def formatSection (hostname : String → Option String) (index : Nat) (r : RawResult) :
    Option String :=
  let content := jsOr r.markdown (jsOr r.description "No content available")
  let title := jsOr r.title (jsOr r.metaTitle "Untitled")
  let url := jsOr r.url (jsOr r.metaSourceURL "#")
  let n := index + 1
  (if url ≠ "#" then (hostname url).map (fun h => replaceFirst h "www.")
   else pure "unknown").map fun domain =>
    s!"\n## {n}. {title}\n**Source:** [{url}]({url}) ({domain})\n{content}\n      "

/-- `formatSearchResults`: sections joined with `'\n\n'`; `none` models a
thrown URL-parse error escaping the formatter. -/
def formatSearchResults (hostname : String → Option String) (rawResults : List RawResult) :
    Option String := do
  let sections ← rawResults.enum.mapM (fun p => formatSection hostname p.1 p.2)
  pure (String.intercalate "\n\n" sections)

/-- The model-call outcomes available to `streamProcessWithSelectedModel`:
`streamChat` is the streaming completion used for the Claude model (its
success value is the accumulated response text), `chat` the plain
completion used for every other model (its success value is
`response.content`); `.error` models the provider call throwing. -/
structure ModelEnv where
  modelKey : String
  streamChat : Except Unit String
  chat : Except Unit String

/-- `streamProcessWithSelectedModel` (unified-research-agent.ts:565-707)
as the list of frames it yields plus its outcome (`.ok` the generator's
return value — which `for await` consumers discard — or `.error` for an
exception it rethrows after yielding an `error` frame).

Two load-bearing facts of the source are visible here.  First, in the
Claude branch the per-token `content_chunk` JSON strings are built inside
the `streamChat` callback and returned from it, but a callback cannot
yield into the enclosing generator, so no `content_chunk` frame ever
reaches the stream.  Second, `formatSearchResults` is evaluated before
the first yield, so a URL-parse error there escapes with no frames
emitted. -/
def streamProcessWithSelectedModel (env : ModelEnv) (hostname : String → Option String)
    (_query : String) (rawResults : List RawResult) : List Event × Except Unit String :=
  match formatSearchResults hostname rawResults with
  | none => ([], .error ())
  | some _formatted =>
    let name := getModelDisplayName env.modelKey
    let lead := [Event.progressFrame 70 s!"Processing search results with {name}...",
                 Event.progressFrame 75 s!"Analyzing information with {name}..."]
    if env.modelKey = "claude-3.7-sonnet" then
      match env.streamChat with
      | .ok responseText =>
          (lead ++ [Event.progressFrame 80 "Beginning to stream response...",
                    Event.completeFrame "Response complete"], .ok responseText)
      | .error _ =>
          (lead ++ [Event.progressFrame 80 "Beginning to stream response...",
                    Event.errorFrame "Error generating response. Please try again with a different query."],
           .error ())
    else
      match env.chat with
      | .ok content => (lead ++ [Event.contentFrame content], .ok content)
      | .error _ =>
          (lead ++ [Event.errorFrame "Error generating response. Please try again with a different query."],
           .error ())

/-- The chunk-accumulation loop of `doRegularResearch`
(unified-research-agent.ts:767-780): each forwarded frame is re-parsed
and only a `content_chunk` frame with truthy content extends
`processedContent`. -/
def accumulateContent (evs : List Event) : String :=
  evs.foldl (fun acc e =>
    match e with
    | .contentChunk c => if c ≠ "" then acc ++ c else acc
    | _ => acc) ""

/-- External-call outcomes and opaque wall-clock readings consumed by one
regular-research run.  The `...TimeText` fields stand for the
`(elapsed/1000).toFixed(1)` strings interpolated into timing traces. -/
structure RegularEnv where
  model : ModelEnv
  search : SearchOutcome
  hostname : String → Option String
  searchTimeText : String
  processingTimeText : String
  reportTimeText : String
  reportChat : ChatOutcome

/-- `doRegularResearch` (unified-research-agent.ts:712-815) as the frames
it yields plus an error flag: `true` means an exception escaped the
generator (only possible when the inner model-processing stream rethrows)
to be caught by `processQueryStream`.  The search step's `try` covers the
zero-result throw, the `formatSearchResults` throw and the
`source_update` emission; its `catch` keeps the already-assigned
`results`/`sources` variables. -/
def doRegularResearch (env : RegularEnv) (query : String) : List Event × Bool :=
  let step1 := [Event.reasoningTrace s!"Searching the web for information about: \"{query}\""]
  let swr := searchWeb env.search
  let catchEvents : List Event :=
    [Event.reasoningTrace "Search engine lookup failed. Proceeding with limited information.",
     Event.searchResultsFrame "Search engine lookup failed. Will attempt to proceed with limited information."]
  let searchEvents : List Event :=
    if swr.results.isEmpty then catchEvents
    else
      let n := swr.results.length
      let t := env.searchTimeText
      let foundTrace := Event.reasoningTrace s!"Found {n} search results in {t} seconds."
      match formatSearchResults env.hostname swr.results with
      | none => foundTrace :: catchEvents
      | some fmt =>
          foundTrace :: Event.searchResultsFrame fmt ::
            swr.sources.map (fun s => Event.sourceUpdate s.url s)
  let inner := streamProcessWithSelectedModel env.model env.hostname query swr.results
  match inner.2 with
  | .error _ => (step1 ++ searchEvents ++ inner.1, true)
  | .ok _ =>
      let processedContent := accumulateContent inner.1
      let t2 := env.processingTimeText
      let analyzedTrace := Event.reasoningTrace s!"Analyzed search results in {t2} seconds."
      let tailEvents : List Event :=
        if processedContent ≠ "" then
          let t3 := env.reportTimeText
          [Event.reasoningTrace "Generating comprehensive research report that synthesizes findings...",
           Event.reasoningTrace s!"Research report generated in {t3} seconds.",
           Event.contentFrame (generateResearchReport query env.reportChat)]
        else
          [Event.errorFrame "Failed to generate research results. Please try again with a different query."]
      (step1 ++ searchEvents ++ inner.1 ++ [analyzedTrace] ++ tailEvents, false)

end UnifiedResearchAgent

namespace Deep

open UnifiedResearchAgent

/-- External-call outcomes consumed by one deep-research run, indexed by
call sequence number: the `k`-th `generateSerpQueries` chat call, the
`k`-th `searchWeb` HTTP call and the `k`-th `processSerpResult` chat call
(calls from concurrently-resolving units are modelled in submission
order, which is also how their post-`Promise.all` effects are applied in
the source). -/
structure Env where
  plan : Nat → PlanOutcome
  search : Nat → SearchOutcome
  distill : Nat → DistillOutcome
  finalChat : ChatOutcome

/-- A `{query, depth}` entry of the `queriesToProcess` work queue. -/
structure QueueNode where
  query : String
  depth : Nat
deriving Repr, DecidableEq

/-- A snapshot of `progressData` at the `reportProgress` call issued when
a search+distill unit completes (unified-research-agent.ts:963-969). -/
structure UnitReport where
  progress : Int
  currentDepth : Nat
  totalDepth : Nat
  completedQueries : Nat
  totalQueries : Nat
deriving Repr, DecidableEq

/-- Ghost record of one follow-up node pushed onto the work queue,
together with the depth of the node whose processing produced it. -/
structure FollowUpRecord where
  parentDepth : Nat
  node : QueueNode
deriving Repr, DecidableEq

/-- The mutable run state of `doDeepResearch`, plus ghost trace fields
(`events` = frames yielded so far, `unitReports`, `processedNodes`,
`followUpRecords`, and the external-call counters). -/
structure State where
  allLearnings : List String
  visitedQueries : List String
  visitedUrls : List String
  allSources : List Source
  completedQueries : Nat
  totalQueries : Nat
  events : List Event
  unitReports : List UnitReport
  processedNodes : List QueueNode
  followUpRecords : List FollowUpRecord
  planCalls : Nat
  searchCalls : Nat
  distillCalls : Nat
deriving Repr, DecidableEq

/-- `Set.add`: insertion-ordered, deduplicating. -/
def setAdd (s : List String) (x : String) : List String :=
  if x ∈ s then s else s ++ [x]

/-- What one concurrent unit hands back to the post-`Promise.all` loop
(`{traceMessages, learnings, followUps}`). -/
structure UnitResult where
  traceMessages : List String
  learnings : List String
  followUps : List QueueNode
deriving Repr, DecidableEq

/-- The distill phase of one concurrent unit
(unified-research-agent.ts:935-961): when the searched results are
non-empty, call `processSerpResult` (learning cap 5, follow-up cap 3),
collect its traces and learnings, and tag its follow-up questions with
`currentDepth + 1` only when `currentDepth < depth`.  Returns the
updated state, the traces, the extracted learnings and the tagged
follow-up nodes. -/
def distillStep (env : Env) (totalDepth currentDepth : Nat) (q : String)
    (swr : UnifiedResearchAgent.SearchWebResult) (state : State) :
    State × List String × List String × List QueueNode :=
  if swr.results.length > 0 then
    let out := processSerpResult q swr.results 5 3 (env.distill state.distillCalls)
    let state := { state with distillCalls := state.distillCalls + 1 }
    let nl := out.learnings.length
    let nf := out.followUpQuestions.length
    let takeFollowUps := out.followUpQuestions ≠ [] ∧ currentDepth < totalDepth
    let t := ["Extracting key learnings from search results..."] ++
      (if out.learnings ≠ [] then [s!"Extracted {nl} key insights from search results."] else []) ++
      (if takeFollowUps then [s!"Generated {nf} follow-up questions for deeper research."] else [])
    let followUps : List QueueNode :=
      if takeFollowUps then
        out.followUpQuestions.map (fun fq => { query := fq.query, depth := currentDepth + 1 })
      else []
    (state, t, out.learnings, followUps)
  else (state, [], [], [])

/-- One concurrent search+distill unit of `doDeepResearch`
(unified-research-agent.ts:903-986): search, record URLs into
`visitedUrls`, append sources, run the distill phase, bump
`completedQueries` and report the blended progress value.  The unit's
own `catch` is unreachable because every call it awaits catches its
errors internally. -/
def runUnit (env : Env) (totalDepth currentDepth index batchSize : Nat)
    (state : State) (genQuery : SerpQuery) : State × UnitResult :=
  let q := genQuery.query
  let n1 := index + 1
  let goal := genQuery.researchGoal
  let traces0 := [s!"Searching for: \"{q}\" ({n1}/{batchSize})", s!"Search goal: {goal}"]
  let swr := searchWeb (env.search state.searchCalls)
  let numResults := swr.results.length
  let traces1 := traces0 ++ [s!"Found {numResults} search results for query \"{q}\""]
  let state1 :=
    { state with
      searchCalls := state.searchCalls + 1
      visitedUrls :=
        swr.sources.foldl (fun (vs : List String) (s : Source) =>
          if s.url ≠ "" then setAdd vs s.url else vs) state.visitedUrls
      allSources := state.allSources ++ swr.sources }
  let ds := distillStep env totalDepth currentDepth q swr state1
  let state2 := ds.1
  let traces2 := ds.2.1
  let extractedLearnings := ds.2.2.1
  let extractedFollowUps := ds.2.2.2
  let completed := state2.completedQueries + 1
  let total := state2.totalQueries
  let progressInt : Int :=
    ⌊min (90 : ℚ) (20 + 70 * (((currentDepth : ℚ) - 1) / (totalDepth : ℚ) +
      (completed : ℚ) / (total : ℚ) / (totalDepth : ℚ)))⌋
  let state3 :=
    { state2 with
      completedQueries := completed
      unitReports := state2.unitReports ++
        [{ progress := progressInt, currentDepth := currentDepth, totalDepth := totalDepth
           completedQueries := completed, totalQueries := total }] }
  (state3, { traceMessages := traces1 ++ traces2, learnings := extractedLearnings
             followUps := extractedFollowUps })

/-- The sequential dispatch of one node's generated queries.  The source
runs them through a `pLimit(2)` pool and `Promise.all`; each unit's state
effects are atomic between awaits under the single-threaded model, and
the aggregate state and the collected `results` array are
order-insensitive for the properties proved here, so the pool is
modelled in submission order. -/
def runBatch (env : Env) (totalDepth currentDepth batchSize : Nat) :
    Nat → State → List SerpQuery → State × List UnitResult
  | _, state, [] => (state, [])
  | index, state, q :: qs =>
      let ur := runUnit env totalDepth currentDepth index batchSize state q
      let rest := runBatch env totalDepth currentDepth batchSize (index + 1) ur.1 qs
      (rest.1, ur.2 :: rest.2)

/-- The state effects of one iteration of the post-`Promise.all` loop
(unified-research-agent.ts:993-1014): yield the unit's traces, append
and stream its learnings, and record its follow-ups. -/
def postBatchStep (currentDepth : Nat) (state : State) (r : UnitResult) : State :=
  let state1 := { state with events := state.events ++ r.traceMessages.map Event.reasoningTrace }
  let state2 :=
    if r.learnings ≠ [] then
      { state1 with
        allLearnings := state1.allLearnings ++ r.learnings
        events := state1.events ++ [Event.learningsFrame (String.intercalate "\n" r.learnings)] }
    else state1
  if r.followUps ≠ [] then
    { state2 with followUpRecords := state2.followUpRecords ++
        r.followUps.map (fun n => { parentDepth := currentDepth, node := n }) }
  else state2

/-- The post-`Promise.all` loop (unified-research-agent.ts:993-1014):
apply each unit's effects in submission order and push its follow-ups
onto the work queue. -/
def postBatch (currentDepth : Nat) :
    State → List QueueNode → List UnitResult → State × List QueueNode
  | state, queue, [] => (state, queue)
  | state, queue, r :: rs =>
      postBatch currentDepth (postBatchStep currentDepth state r)
        (if r.followUps ≠ [] then queue ++ r.followUps else queue) rs

/-- Processing of one dequeued node (unified-research-agent.ts:872-1021):
skip if already visited, otherwise mark visited, plan queries, bump
`totalQueries`, run the unit batch and apply the post-batch loop. -/
def runNode (env : Env) (totalDepth breadth currentDepth levelSize index : Nat)
    (state : State) (queue : List QueueNode) (node : QueueNode) : State × List QueueNode :=
  if node.query ∈ state.visitedQueries then (state, queue)
  else
    let q := node.query
    let n1 := index + 1
    let state :=
      { state with
        visitedQueries := state.visitedQueries ++ [node.query]
        processedNodes := state.processedNodes ++ [node]
        events := state.events ++
          [Event.reasoningTrace
            s!"Researching sub-question: \"{q}\" ({n1}/{levelSize} at depth {currentDepth})",
           Event.reasoningTrace "Generating targeted search queries based on the sub-question..."] }
    let generatedQueries := generateSerpQueries node.query breadth (env.plan state.planCalls)
    let ng := generatedQueries.length
    let state :=
      { state with
        planCalls := state.planCalls + 1
        totalQueries := state.totalQueries + ng
        events := state.events ++
          [Event.reasoningTrace
            s!"Generated {ng} search queries to explore different aspects of the question."] }
    let rb := runBatch env totalDepth currentDepth ng 0 state generatedQueries
    postBatch currentDepth rb.1 queue rb.2

/-- Sequential processing of the nodes of one depth level. -/
def runLevel (env : Env) (totalDepth breadth currentDepth levelSize : Nat) :
    Nat → State → List QueueNode → List QueueNode → State × List QueueNode
  | _, state, queue, [] => (state, queue)
  | index, state, queue, node :: rest =>
      let rn := runNode env totalDepth breadth currentDepth levelSize index state queue node
      runLevel env totalDepth breadth currentDepth levelSize (index + 1) rn.1 rn.2 rest

/-- The `while (queriesToProcess.length > 0 && currentDepth <= depth)`
loop (unified-research-agent.ts:859-1025), fuelled by the remaining depth
levels (`depth + 1 - currentDepth`): drain the nodes whose `depth` equals
`currentDepth`, keep the deeper ones, then advance one level. -/
def loop (env : Env) (totalDepth breadth : Nat) :
    Nat → Nat → List QueueNode → State → State
  | 0, _, _, state => state
  | fuel + 1, currentDepth, queue, state =>
      if queue.isEmpty then state
      else
        let currentLevel := queue.filter (fun q => q.depth == currentDepth)
        let rest := queue.filter (fun q => decide (currentDepth < q.depth))
        let n := currentLevel.length
        let state := { state with events := state.events ++
          [Event.reasoningTrace
            s!"Starting depth {currentDepth}/{totalDepth} of research with {n} queries to explore."] }
        let rl := runLevel env totalDepth breadth currentDepth n 0 state rest currentLevel
        loop env totalDepth breadth fuel (currentDepth + 1) rl.2 rl.1

/-- The `{depth, breadth}` options argument of `doDeepResearch`. -/
structure Options where
  depth : Int
  breadth : Int
deriving Repr, DecidableEq

/-- Result of a deep-research run: the yielded frames, the clamped
bounds, and the final state with its ghost traces. -/
structure RunResult where
  events : List Event
  depthUsed : Int
  breadthUsed : Int
  state : State
deriving Repr, DecidableEq

/-- `doDeepResearch` (unified-research-agent.ts:820-1071) on its normal
path: clamp `depth` to `[1,5]` and `breadth` to `[2,5]` at entry, seed
the queue with `{query, depth: 1}`, drain it level by level, then stream
one `content` frame with the final report.  The top-level `catch`
(reached only through a consumer-injected or callback exception) is not
part of this normal-path model. -/
def doDeepResearch (env : Env) (query : String) (options : Options) : RunResult :=
  let depth : Int := min (max 1 options.depth) 5
  let breadth : Int := min (max 2 options.breadth) 5
  let d := depth.toNat
  let b := breadth.toNat
  let state0 : State :=
    { allLearnings := [], visitedQueries := [], visitedUrls := [], allSources := []
      completedQueries := 0, totalQueries := 0
      events :=
        [Event.reasoningTrace
          s!"Starting deep research for query: \"{query}\" with depth={depth}, breadth={breadth}",
         Event.reasoningTrace
          "Deep research enables a more thorough analysis by exploring multiple angles and sub-questions.",
         Event.reasoningTrace "Preparing initial query and planning research strategy..."]
      unitReports := [], processedNodes := [], followUpRecords := []
      planCalls := 0, searchCalls := 0, distillCalls := 0 }
  let finalState := loop env d b d 1 [{ query := query, depth := 1 }] state0
  let finalReport := generateFinalReport query finalState.allLearnings finalState.allSources env.finalChat
  let finalState := { finalState with events := finalState.events ++ [Event.contentFrame finalReport] }
  { events := finalState.events, depthUsed := depth, breadthUsed := breadth, state := finalState }

end Deep

/-- JS `n || b` defaulting on the numeric options (`0` is falsy). -/
def jsOrInt (a : Option Int) (b : Int) : Int :=
  match a with
  | some n => if n = 0 then b else n
  | none => b

/-- The options argument of `processQueryStream`
(`{isDeepResearch?, depth?, breadth?}`). -/
structure QueryOptions where
  isDeepResearch : Bool := false
  depth : Option Int := none
  breadth : Option Int := none

/-- All external-call outcomes one `processQueryStream` run can consume. -/
structure AgentEnv where
  regular : UnifiedResearchAgent.RegularEnv
  deep : Deep.Env

/-- `processQueryStream` (unified-research-agent.ts:1076-1109): default
the options (`options.depth || 2`, `options.breadth || 3`), dispatch to
the deep or regular generator, and convert an escaping exception into a
final generic `error` frame. -/
def processQueryStream (env : AgentEnv) (query : String) (options : QueryOptions) :
    List Event :=
  let depth := jsOrInt options.depth 2
  let breadth := jsOrInt options.breadth 3
  if options.isDeepResearch then
    (Deep.doDeepResearch env.deep query { depth := depth, breadth := breadth }).events
  else
    match UnifiedResearchAgent.doRegularResearch env.regular query with
    | (evs, false) => evs
    | (evs, true) => evs ++ [Event.errorFrame "An error occurred during research. Please try again."]

/-- The spec's progress formula (§4.4.7), stated over the fields of a
recorded unit-completion report:
`floor(min(90, 20 + 70 * ((currentDepth-1)/depth
+ completedQueries/totalQueries/depth)))`. -/
def GoodReport (u : Deep.UnitReport) : Prop :=
  u.progress =
    ⌊min (90 : ℚ) (20 + 70 * (((u.currentDepth : ℚ) - 1) / (u.totalDepth : ℚ) +
      (u.completedQueries : ℚ) / (u.totalQueries : ℚ) / (u.totalDepth : ℚ)))⌋

/-- The invariant maintained by the deep-research queue loop over the
run state's ghost traces, for clamped depth bound `d`: every enqueued
follow-up sits one level below its parent and is only produced strictly
above the bottom level; every processed node respects the depth bound;
every unit-completion progress report carries the blended formula value;
and no yielded frame is a `sources`/`source_update` frame. -/
structure LoopInv (d : Nat) (s : Deep.State) : Prop where
  followUps : ∀ f ∈ s.followUpRecords, f.node.depth = f.parentDepth + 1 ∧ f.parentDepth < d
  processed : ∀ n ∈ s.processedNodes, n.depth ≤ d
  reports : ∀ u ∈ s.unitReports, u.totalDepth = d ∧ GoodReport u
  cleanEvents : ∀ e ∈ s.events, e.isSourcesLike = false

section ConcreteRuns

/-- A concrete raw search result with a title and URL. -/
def rawA : RawResult := { title := some "A", url := some "https://a.com", snippet := some "sa" }

/-- A concrete raw search result with no title and the same URL as
`rawA`. -/
def rawB : RawResult := { title := none, url := some "https://a.com", description := some "sb" }

/-- A deep-research environment in which planning yields one query,
every search returns one result, and distillation yields one learning
and one follow-up question. -/
def cDeepEnv : Deep.Env :=
  { plan := fun _ => .queries [{ query := "q1", researchGoal := "g1" }]
    search := fun _ => .response (some [rawA])
    distill := fun _ => .parsed ["l1"] [{ query := "f1", goal := "fg" }]
    finalChat := .reply "final" }

/-- A regular-research environment whose single search returns two
results sharing one URL. -/
def cRegularEnvDup : UnifiedResearchAgent.RegularEnv :=
  { model := { modelKey := "deepseek-r1", streamChat := .ok "t", chat := .ok "answer" }
    search := .response (some [rawA, rawB])
    hostname := fun _ => some "a.com"
    searchTimeText := "0.5", processingTimeText := "1.0", reportTimeText := "0.7"
    reportChat := .reply "final report" }

/-- A concrete raw search result with a third URL, distinct from
`rawA`'s. -/
def rawC : RawResult := { title := some "C", url := some "https://c.com", snippet := some "sc" }

/-- A regular-research environment whose single search returns two
results with distinct URLs. -/
def cRegularEnvDistinct : UnifiedResearchAgent.RegularEnv :=
  { model := { modelKey := "deepseek-r1", streamChat := .ok "t", chat := .ok "answer" }
    search := .response (some [rawA, rawC])
    hostname := fun _ => some "a.com"
    searchTimeText := "0.5", processingTimeText := "1.0", reportTimeText := "0.7"
    reportChat := .reply "final report" }

/-- A regular-research environment whose model-processing chat call
fails. -/
def cRegularEnvChatFail : UnifiedResearchAgent.RegularEnv :=
  { model := { modelKey := "deepseek-r1", streamChat := .error (), chat := .error () }
    search := .failure
    hostname := fun _ => none
    searchTimeText := "0.5", processingTimeText := "1.0", reportTimeText := "0.7"
    reportChat := .reply "final report" }

/-- An `AgentEnv` wrapping `cRegularEnvDup`. -/
def cAgentEnvDup : AgentEnv := { regular := cRegularEnvDup, deep := cDeepEnv }

/-- An `AgentEnv` wrapping `cRegularEnvChatFail`. -/
def cAgentEnvChatFail : AgentEnv := { regular := cRegularEnvChatFail, deep := cDeepEnv }

end ConcreteRuns

/-! ## Theorems -/

/-- C4: for every options input to a deep-research run, the effective
depth is clamped at entry to `[1,5]` and the effective breadth to
`[2,5]`: the run uses `depth = min(max(1, options.depth), 5)` and
`breadth = min(max(2, options.breadth), 5)`. -/
theorem C4_clamping (env : Deep.Env) (query : String) (options : Deep.Options) :
    (Deep.doDeepResearch env query options).depthUsed = min (max 1 options.depth) 5 ∧
    (Deep.doDeepResearch env query options).breadthUsed = min (max 2 options.breadth) 5 :=
  ⟨rfl, rfl⟩

/-- C5 counterexample: when the planning model returns a valid JSON
object whose `queries` array is empty, `generateSerpQueries` returns the
empty list — refuting the claim that the returned list always has length
at least 1. -/
theorem C5_counterexample :
    ¬ 1 ≤ (UnifiedResearchAgent.generateSerpQueries "history of cryptocurrency" 3
            (UnifiedResearchAgent.PlanOutcome.queries [])).length := by
  decide

/-- C5 amended: the returned list has length at most `numQueries`
whenever the model reply parses to a `queries` array (truncation), and
the fallback makes it exactly 1 on a parse failure or a chat error; but
a parsed empty `queries` array is returned as-is, so non-emptiness is
not guaranteed in general. -/
theorem C5_query_count_bounds (query : String) (numQueries : Nat) :
    (∀ qs, (UnifiedResearchAgent.generateSerpQueries query numQueries
        (UnifiedResearchAgent.PlanOutcome.queries qs)).length ≤ numQueries) ∧
    (UnifiedResearchAgent.generateSerpQueries query numQueries
        UnifiedResearchAgent.PlanOutcome.parseFailure).length = 1 ∧
    (UnifiedResearchAgent.generateSerpQueries query numQueries
        UnifiedResearchAgent.PlanOutcome.chatError).length = 1 := by
  refine ⟨fun qs => ?_, rfl, rfl⟩
  simp [UnifiedResearchAgent.generateSerpQueries]

/-- C6: for every planning model output that is not valid JSON or lacks
a `queries` array (and likewise when the chat call itself fails),
`generateSerpQueries` returns exactly one fallback query whose `query`
field is the original topic and whose `researchGoal` is the generic
explanatory string; the embedding is total, so no error reaches the
caller. -/
theorem C6_plan_fallback (query : String) (numQueries : Nat) :
    UnifiedResearchAgent.generateSerpQueries query numQueries
        UnifiedResearchAgent.PlanOutcome.parseFailure =
      [{ query := query, researchGoal := "Directly answering the user's original query" }] ∧
    UnifiedResearchAgent.generateSerpQueries query numQueries
        UnifiedResearchAgent.PlanOutcome.chatError =
      [{ query := query, researchGoal := "Directly answering the user's original query" }] :=
  ⟨rfl, rfl⟩

/-- C8: `processSerpResult` short-circuits an empty results list to
`{learnings: [], followUpQuestions: []}` without calling the model
(`calledModel = false`), and on a successful parse truncates the
learnings to `numLearnings` and the follow-up questions to
`numFollowUpQuestions`. -/
theorem C8_distiller_caps (query : String) (numLearnings numFollowUpQuestions : Nat)
    (outcome : UnifiedResearchAgent.DistillOutcome) :
    UnifiedResearchAgent.processSerpResult query [] numLearnings numFollowUpQuestions outcome =
      { learnings := [], followUpQuestions := [], calledModel := false } ∧
    ∀ (results : List RawResult) (ls : List String)
      (fs : List UnifiedResearchAgent.FollowUpQuestion), results ≠ [] →
      (UnifiedResearchAgent.processSerpResult query results numLearnings numFollowUpQuestions
          (.parsed ls fs)).learnings.length ≤ numLearnings ∧
      (UnifiedResearchAgent.processSerpResult query results numLearnings numFollowUpQuestions
          (.parsed ls fs)).followUpQuestions.length ≤ numFollowUpQuestions := by
  refine ⟨rfl, fun results ls fs h => ?_⟩
  have h1 : results.isEmpty = false := by
    cases results with
    | nil => exact absurd rfl h
    | cons a l => rfl
  constructor <;>
    simp [UnifiedResearchAgent.processSerpResult, h1, List.length_take]

/-- C8 witness: the theorem applied at a concrete non-empty results
list. -/
theorem C8_witness :
    UnifiedResearchAgent.processSerpResult "q" [] 3 3
        UnifiedResearchAgent.DistillOutcome.parseFailure =
      { learnings := [], followUpQuestions := [], calledModel := false } ∧
    (UnifiedResearchAgent.processSerpResult "q" [rawA] 1 1
        (.parsed ["a", "b"] [])).learnings.length ≤ 1 :=
  ⟨(C8_distiller_caps "q" 3 3 UnifiedResearchAgent.DistillOutcome.parseFailure).1,
   ((C8_distiller_caps "q" 1 1 UnifiedResearchAgent.DistillOutcome.parseFailure).2
      [rawA] ["a", "b"] [] (by decide)).1⟩

/-- C10: `UnifiedResearchAgent.searchWeb` never throws — on any thrown
request/network error and on any response without a proper `data.data`
array it returns `{results: [], sources: []}` — every `Source` it
returns has a non-empty `url` (entries with a falsy URL are filtered
out), every returned source arises from one of the raw results via the
`mkSource` mapping, and that mapping defaults the title to `"Untitled"`
when the raw result has none. -/
theorem C10_searchWeb_safety :
    (UnifiedResearchAgent.searchWeb .failure = { results := [], sources := [] } ∧
     UnifiedResearchAgent.searchWeb (.response none) = { results := [], sources := [] }) ∧
    (∀ (outcome : UnifiedResearchAgent.SearchOutcome),
      ∀ s ∈ (UnifiedResearchAgent.searchWeb outcome).sources, s.url ≠ "") ∧
    (∀ (rs : List RawResult),
      ∀ s ∈ (UnifiedResearchAgent.searchWeb (.response (some rs))).sources,
      ∃ r ∈ rs, s = UnifiedResearchAgent.mkSource r) ∧
    (∀ r : RawResult, (r.title = none ∨ r.title = some "") →
      (UnifiedResearchAgent.mkSource r).title = "Untitled") := by
  refine ⟨⟨rfl, rfl⟩, ?_, ?_, ?_⟩
  · intro outcome s hs
    match outcome with
    | .failure => simp [UnifiedResearchAgent.searchWeb] at hs
    | .response none => simp [UnifiedResearchAgent.searchWeb] at hs
    | .response (some rs) =>
        simp only [UnifiedResearchAgent.searchWeb, List.mem_filter, bne_iff_ne, ne_eq] at hs
        exact hs.2
  · intro rs s hs
    simp only [UnifiedResearchAgent.searchWeb, List.mem_filter, List.mem_map] at hs
    obtain ⟨⟨r, hr, hs'⟩, _⟩ := hs
    exact ⟨r, hr, hs'.symm⟩
  · intro r h
    rcases h with h | h <;> simp [UnifiedResearchAgent.mkSource, jsOr, h]

/-- C10 witness: the theorem applied at a concrete search outcome and
returned source. -/
theorem C10_witness :
    (UnifiedResearchAgent.mkSource rawA).url ≠ "" ∧
    (UnifiedResearchAgent.mkSource rawB).title = "Untitled" :=
  ⟨C10_searchWeb_safety.2.1 (.response (some [rawA])) (UnifiedResearchAgent.mkSource rawA)
      (by decide),
   C10_searchWeb_safety.2.2.2 rawB (Or.inl rfl)⟩

/-- C7: when every HTTP attempt fails with status 429, the LangChain
search client makes exactly `maxRetries + 1` attempts (3 with the
default `maxRetries = 2`), then returns `success = false`, empty
sources, and the human-readable fallback message saying the results
come from background model knowledge rather than live search; the
embedding is total, so nothing is raised to the caller. -/
theorem C7_retry_exhaustion (query : String) (hostname : String → Option String)
    (attempt : Nat → LangChainAgent.LCAttempt)
    (h : ∀ k, attempt k = .errStatus 429 none) :
    LangChainAgent.searchWeb query hostname attempt =
      (LangChainAgent.lcUnavailable query, LangChainAgent.maxRetries + 1) ∧
    (LangChainAgent.lcUnavailable query).success = false ∧
    (LangChainAgent.lcUnavailable query).sources = [] ∧
    (LangChainAgent.lcUnavailable query).results =
      "## Web Search Unavailable\nUnfortunately, I couldn't perform a live web search at this time. I'll provide information based on my knowledge.\n\nThe query was: " ++
      query ++
      "\n\nThis is based on my existing knowledge rather than real-time web search results." := by
  refine ⟨?_, rfl, rfl, rfl⟩
  simp [LangChainAgent.searchWeb, LangChainAgent.maxRetries, LangChainAgent.lcSearchLoop,
    LangChainAgent.lcIteration, LangChainAgent.lcCommonRetry, h 0, h 1, h 2]

/-- C7 witness: the theorem applied to the constant-429 attempt
sequence. -/
theorem C7_witness :
    LangChainAgent.searchWeb "history of cryptocurrency" (fun _ => none)
      (fun _ => LangChainAgent.LCAttempt.errStatus 429 none) =
      (LangChainAgent.lcUnavailable "history of cryptocurrency", 3) :=
  (C7_retry_exhaustion "history of cryptocurrency" (fun _ => none)
    (fun _ => LangChainAgent.LCAttempt.errStatus 429 none) (fun _ => rfl)).1

/-! ### Invariant lemmas for the deep-research loop -/

/-- Appending sources-free events to a sources-free stream keeps it
sources-free. -/
theorem cleanEvents_append (s t : List Event)
    (hs : ∀ e ∈ s, e.isSourcesLike = false) (ht : ∀ e ∈ t, e.isSourcesLike = false) :
    ∀ e ∈ s ++ t, e.isSourcesLike = false := by
  intro e he
  rcases List.mem_append.mp he with h | h
  exacts [hs e h, ht e h]

/-- Reasoning-trace frames are never `sources`/`source_update` frames. -/
theorem cleanEvents_traces (msgs : List String) :
    ∀ e ∈ msgs.map Event.reasoningTrace, e.isSourcesLike = false := by
  intro e he
  obtain ⟨m, _, rfl⟩ := List.mem_map.mp he
  rfl

/-- `distillStep` leaves every ghost-trace field of the state (and the
progress counters) unchanged; it only bumps `distillCalls`. -/
theorem distillStep_ghost (env : Deep.Env) (d cd : Nat) (q : String)
    (swr : UnifiedResearchAgent.SearchWebResult) (s : Deep.State) :
    (Deep.distillStep env d cd q swr s).1.followUpRecords = s.followUpRecords ∧
    (Deep.distillStep env d cd q swr s).1.processedNodes = s.processedNodes ∧
    (Deep.distillStep env d cd q swr s).1.unitReports = s.unitReports ∧
    (Deep.distillStep env d cd q swr s).1.events = s.events ∧
    (Deep.distillStep env d cd q swr s).1.completedQueries = s.completedQueries ∧
    (Deep.distillStep env d cd q swr s).1.totalQueries = s.totalQueries := by
  unfold Deep.distillStep
  split <;> exact ⟨rfl, rfl, rfl, rfl, rfl, rfl⟩

/-- Every follow-up node produced by `distillStep` carries depth
`currentDepth + 1`, and any follow-up at all is produced only strictly
below the clamped depth bound. -/
theorem distillStep_followUps (env : Deep.Env) (d cd : Nat) (q : String)
    (swr : UnifiedResearchAgent.SearchWebResult) (s : Deep.State) :
    (∀ n ∈ (Deep.distillStep env d cd q swr s).2.2.2, n.depth = cd + 1) ∧
    ((Deep.distillStep env d cd q swr s).2.2.2 ≠ [] → cd < d) := by
  unfold Deep.distillStep
  split
  · dsimp only
    constructor
    · intro n hn
      split at hn
      · obtain ⟨fq, _, rfl⟩ := List.mem_map.mp hn
        rfl
      · simp at hn
    · intro hne
      split at hne
      · next hcond => exact hcond.2
      · exact absurd rfl hne
  · exact ⟨fun n hn => absurd hn (List.not_mem_nil n), fun hne => absurd rfl hne⟩

/-- `runUnit` returns exactly the follow-ups of its distill phase, so
they carry depth `currentDepth + 1` and exist only below the bound. -/
theorem runUnit_followUps (env : Deep.Env) (d cd i b : Nat) (s : Deep.State)
    (gq : UnifiedResearchAgent.SerpQuery) :
    (∀ n ∈ (Deep.runUnit env d cd i b s gq).2.followUps, n.depth = cd + 1) ∧
    ((Deep.runUnit env d cd i b s gq).2.followUps ≠ [] → cd < d) := by
  unfold Deep.runUnit
  dsimp only
  exact distillStep_followUps env d cd gq.query _ _

/-- `runUnit` preserves the loop invariant: it leaves the follow-up
records, the processed nodes and the events untouched, and the one unit
report it appends carries the clamped depth and the blended progress
formula by construction. -/
theorem runUnit_inv (env : Deep.Env) (d cd i b : Nat) (s : Deep.State)
    (gq : UnifiedResearchAgent.SerpQuery) (hinv : LoopInv d s) :
    LoopInv d (Deep.runUnit env d cd i b s gq).1 := by
  obtain ⟨g1, g2, g3, g4, g5, g6⟩ :=
    distillStep_ghost env d cd gq.query
      (UnifiedResearchAgent.searchWeb (env.search s.searchCalls))
      { s with
        searchCalls := s.searchCalls + 1
        visitedUrls :=
          (UnifiedResearchAgent.searchWeb (env.search s.searchCalls)).sources.foldl
            (fun (vs : List String) (src : Source) =>
              if src.url ≠ "" then Deep.setAdd vs src.url else vs) s.visitedUrls
        allSources := s.allSources ++
          (UnifiedResearchAgent.searchWeb (env.search s.searchCalls)).sources }
  constructor
  · show ∀ f ∈ (Deep.runUnit env d cd i b s gq).1.followUpRecords, _
    have e : (Deep.runUnit env d cd i b s gq).1.followUpRecords = s.followUpRecords := by
      unfold Deep.runUnit
      dsimp only
      rw [g1]
    rw [e]
    exact hinv.followUps
  · have e : (Deep.runUnit env d cd i b s gq).1.processedNodes = s.processedNodes := by
      unfold Deep.runUnit
      dsimp only
      rw [g2]
    rw [e]
    exact hinv.processed
  · intro u hu
    have he : (Deep.runUnit env d cd i b s gq).1.unitReports =
        s.unitReports ++
          [{ progress :=
               ⌊min (90 : ℚ) (20 + 70 * (((cd : ℚ) - 1) / (d : ℚ) +
                 ((s.completedQueries + 1 : Nat) : ℚ) / (s.totalQueries : ℚ) / (d : ℚ)))⌋
             currentDepth := cd, totalDepth := d
             completedQueries := s.completedQueries + 1, totalQueries := s.totalQueries }] := by
      unfold Deep.runUnit
      dsimp only
      rw [g3, g5, g6]
    rw [he] at hu
    rcases List.mem_append.mp hu with h | h
    · exact hinv.reports u h
    · rw [List.mem_singleton.mp h]
      exact ⟨rfl, rfl⟩
  · have e : (Deep.runUnit env d cd i b s gq).1.events = s.events := by
      unfold Deep.runUnit
      dsimp only
      rw [g4]
    rw [e]
    exact hinv.cleanEvents

/-- `runBatch` preserves the loop invariant, and every unit result it
collects satisfies the follow-up depth discipline. -/
theorem runBatch_inv (env : Deep.Env) (d cd bs : Nat) :
    ∀ (qs : List UnifiedResearchAgent.SerpQuery) (idx : Nat) (s : Deep.State),
      LoopInv d s →
      LoopInv d (Deep.runBatch env d cd bs idx s qs).1 ∧
      ∀ r ∈ (Deep.runBatch env d cd bs idx s qs).2,
        (∀ n ∈ r.followUps, n.depth = cd + 1) ∧ (r.followUps ≠ [] → cd < d) := by
  intro qs
  induction qs with
  | nil =>
      intro idx s h
      exact ⟨h, by simp [Deep.runBatch]⟩
  | cons q qs ih =>
      intro idx s h
      rw [Deep.runBatch]
      dsimp only
      obtain ⟨h1, h2⟩ := ih (idx + 1) (Deep.runUnit env d cd idx bs s q).1
        (runUnit_inv env d cd idx bs s q h)
      refine ⟨h1, fun r hr => ?_⟩
      rcases List.mem_cons.mp hr with hhead | htail
      · rw [hhead]
        exact runUnit_followUps env d cd idx bs s q
      · exact h2 r htail

/-- `postBatchStep` appends the follow-up records exactly when the unit
produced follow-ups, and otherwise leaves them unchanged. -/
theorem postBatchStep_followUpRecords (cd : Nat) (s : Deep.State) (r : Deep.UnitResult) :
    (Deep.postBatchStep cd s r).followUpRecords = s.followUpRecords ∨
    ((Deep.postBatchStep cd s r).followUpRecords =
        s.followUpRecords ++ r.followUps.map (fun n => { parentDepth := cd, node := n }) ∧
      r.followUps ≠ []) := by
  unfold Deep.postBatchStep
  dsimp only
  split
  · next hne =>
      refine Or.inr ⟨?_, hne⟩
      split <;> rfl
  · left
    split <;> rfl

/-- `postBatchStep` does not touch the processed-node trace. -/
theorem postBatchStep_processedNodes (cd : Nat) (s : Deep.State) (r : Deep.UnitResult) :
    (Deep.postBatchStep cd s r).processedNodes = s.processedNodes := by
  unfold Deep.postBatchStep
  dsimp only
  split <;> split <;> rfl

/-- `postBatchStep` does not touch the unit-report trace. -/
theorem postBatchStep_unitReports (cd : Nat) (s : Deep.State) (r : Deep.UnitResult) :
    (Deep.postBatchStep cd s r).unitReports = s.unitReports := by
  unfold Deep.postBatchStep
  dsimp only
  split <;> split <;> rfl

/-- `postBatchStep` appends only reasoning-trace frames and possibly one
`learnings` frame. -/
theorem postBatchStep_events (cd : Nat) (s : Deep.State) (r : Deep.UnitResult) :
    (Deep.postBatchStep cd s r).events =
      s.events ++ r.traceMessages.map Event.reasoningTrace ∨
    (Deep.postBatchStep cd s r).events =
      s.events ++ r.traceMessages.map Event.reasoningTrace ++
        [Event.learningsFrame (String.intercalate "\n" r.learnings)] := by
  unfold Deep.postBatchStep
  dsimp only
  split
  · split
    · right; rfl
    · left; rfl
  · split
    · right; rfl
    · left; rfl

/-- One iteration of the post-batch loop preserves the loop invariant,
given that the unit result respects the follow-up depth discipline. -/
theorem postBatchStep_inv (d cd : Nat) (s : Deep.State) (r : Deep.UnitResult)
    (h : LoopInv d s) (hfd : ∀ n ∈ r.followUps, n.depth = cd + 1)
    (hlt : r.followUps ≠ [] → cd < d) :
    LoopInv d (Deep.postBatchStep cd s r) := by
  constructor
  · rcases postBatchStep_followUpRecords cd s r with he | ⟨he, hne⟩
    · rw [he]
      exact h.followUps
    · rw [he]
      intro f hf
      rcases List.mem_append.mp hf with hold | hnew
      · exact h.followUps f hold
      · obtain ⟨n, hn, rfl⟩ := List.mem_map.mp hnew
        exact ⟨hfd n hn, hlt hne⟩
  · rw [postBatchStep_processedNodes]
    exact h.processed
  · rw [postBatchStep_unitReports]
    exact h.reports
  · rcases postBatchStep_events cd s r with he | he <;> rw [he]
    · exact cleanEvents_append _ _ h.cleanEvents (cleanEvents_traces _)
    · exact cleanEvents_append _ _
        (cleanEvents_append _ _ h.cleanEvents (cleanEvents_traces _))
        (by intro e he2; rw [List.mem_singleton.mp he2]; rfl)

/-- The post-batch loop preserves the loop invariant when every unit
result respects the follow-up depth discipline. -/
theorem postBatch_inv (d cd : Nat) :
    ∀ (rs : List Deep.UnitResult) (s : Deep.State) (queue : List Deep.QueueNode),
      LoopInv d s →
      (∀ r ∈ rs, (∀ n ∈ r.followUps, n.depth = cd + 1) ∧ (r.followUps ≠ [] → cd < d)) →
      LoopInv d (Deep.postBatch cd s queue rs).1 := by
  intro rs
  induction rs with
  | nil =>
      intro s queue h _
      exact h
  | cons r rs ih =>
      intro s queue h hr
      rw [Deep.postBatch]
      have hhead := hr r (List.mem_cons_self r rs)
      exact ih _ _ (postBatchStep_inv d cd s r h hhead.1 hhead.2)
        (fun r' hr' => hr r' (List.mem_cons_of_mem r hr'))

/-- Marking a node visited, recording it processed and yielding two
reasoning traces preserves the loop invariant when the node's depth is
within the bound. -/
theorem LoopInv_mark_node (d : Nat) (s : Deep.State) (h : LoopInv d s)
    (node : Deep.QueueNode) (hnode : node.depth ≤ d) (t1 t2 : String) :
    LoopInv d
      { s with
        visitedQueries := s.visitedQueries ++ [node.query]
        processedNodes := s.processedNodes ++ [node]
        events := s.events ++ [Event.reasoningTrace t1, Event.reasoningTrace t2] } := by
  constructor
  · exact h.followUps
  · intro n hn
    rcases List.mem_append.mp hn with hold | hnew
    · exact h.processed n hold
    · rw [List.mem_singleton.mp hnew]
      exact hnode
  · exact h.reports
  · refine cleanEvents_append _ _ h.cleanEvents ?_
    intro e he
    rcases List.mem_cons.mp he with rfl | he2
    · rfl
    · rw [List.mem_singleton.mp he2]
      rfl

/-- Bumping the plan counters and yielding one reasoning trace preserves
the loop invariant. -/
theorem LoopInv_plan_update (d : Nat) (s : Deep.State) (h : LoopInv d s)
    (pc tq : Nat) (t : String) :
    LoopInv d
      { s with
        planCalls := pc
        totalQueries := tq
        events := s.events ++ [Event.reasoningTrace t] } := by
  constructor
  · exact h.followUps
  · exact h.processed
  · exact h.reports
  · refine cleanEvents_append _ _ h.cleanEvents ?_
    intro e he
    rw [List.mem_singleton.mp he]
    rfl

/-- `runNode` preserves the loop invariant for any node whose depth is
within the clamped bound. -/
theorem runNode_inv (env : Deep.Env) (d b cd ls idx : Nat) (s : Deep.State)
    (queue : List Deep.QueueNode) (node : Deep.QueueNode)
    (hinv : LoopInv d s) (hnode : node.depth ≤ d) :
    LoopInv d (Deep.runNode env d b cd ls idx s queue node).1 := by
  unfold Deep.runNode
  split
  · exact hinv
  · dsimp only
    exact postBatch_inv d cd _ _ _
      (runBatch_inv env d cd _ _ _ _
        (LoopInv_plan_update d _ (LoopInv_mark_node d s hinv node hnode _ _) _ _ _)).1
      (runBatch_inv env d cd _ _ _ _
        (LoopInv_plan_update d _ (LoopInv_mark_node d s hinv node hnode _ _) _ _ _)).2

/-- `runLevel` preserves the loop invariant when every node of the level
has depth within the clamped bound. -/
theorem runLevel_inv (env : Deep.Env) (d b cd ls : Nat) :
    ∀ (nodes : List Deep.QueueNode) (idx : Nat) (s : Deep.State)
      (queue : List Deep.QueueNode),
      LoopInv d s → (∀ n ∈ nodes, n.depth ≤ d) →
      LoopInv d (Deep.runLevel env d b cd ls idx s queue nodes).1 := by
  intro nodes
  induction nodes with
  | nil =>
      intro idx s queue h _
      exact h
  | cons node rest ih =>
      intro idx s queue h hd
      rw [Deep.runLevel]
      exact ih (idx + 1) _ _
        (runNode_inv env d b cd ls idx s queue node h (hd node (List.mem_cons_self node rest)))
        (fun n hn => hd n (List.mem_cons_of_mem node hn))

/-- The depth-level loop preserves the loop invariant: nodes processed
at each iteration come from the current-depth filter, whose depth is
within the bound as long as fuel remains. -/
theorem loop_inv (env : Deep.Env) (d b : Nat) :
    ∀ (fuel cd : Nat) (queue : List Deep.QueueNode) (s : Deep.State),
      LoopInv d s → cd + fuel = d + 1 →
      LoopInv d (Deep.loop env d b fuel cd queue s) := by
  intro fuel
  induction fuel with
  | zero =>
      intro cd queue s h _
      exact h
  | succ k ih =>
      intro cd queue s h hfuel
      rw [Deep.loop]
      split
      · exact h
      · dsimp only
        refine ih (cd + 1) _ _ ?_ (by omega)
        refine runLevel_inv env d b cd _ _ _ _ _ ?_ ?_
        · constructor
          · exact h.followUps
          · exact h.processed
          · exact h.reports
          · refine cleanEvents_append _ _ h.cleanEvents ?_
            intro e he
            rw [List.mem_singleton.mp he]
            rfl
        · intro n hn
          have hmem := List.mem_filter.mp hn
          have heq : n.depth = cd := by
            have := hmem.2
            simpa using this
          omega

/-- The fresh run state of `doDeepResearch` (all aggregates empty, three
opening reasoning traces) satisfies the loop invariant. -/
theorem LoopInv_initial (d : Nat) (t1 t2 t3 : String) :
    LoopInv d
      { allLearnings := [], visitedQueries := [], visitedUrls := [], allSources := []
        completedQueries := 0, totalQueries := 0
        events := [Event.reasoningTrace t1, Event.reasoningTrace t2, Event.reasoningTrace t3]
        unitReports := [], processedNodes := [], followUpRecords := []
        planCalls := 0, searchCalls := 0, distillCalls := 0 } := by
  constructor
  · intro f hf
    exact absurd hf (List.not_mem_nil f)
  · intro n hn
    exact absurd hn (List.not_mem_nil n)
  · intro u hu
    exact absurd hu (List.not_mem_nil u)
  · intro e he
    rcases List.mem_cons.mp he with rfl | he2
    · rfl
    · rcases List.mem_cons.mp he2 with rfl | he3
      · rfl
      · rw [List.mem_singleton.mp he3]
        rfl

/-- The deep-research run establishes and maintains the loop invariant;
its final state therefore satisfies all the ghost-trace properties, with
the clamped depth bound. -/
theorem doDeepResearch_inv (env : Deep.Env) (query : String) (options : Deep.Options) :
    LoopInv (min (max 1 options.depth) 5).toNat
      (Deep.doDeepResearch env query options).state := by
  unfold Deep.doDeepResearch
  dsimp only
  constructor
  · exact (loop_inv env _ _ _ 1 _ _ (LoopInv_initial _ _ _ _) (by omega)).followUps
  · exact (loop_inv env _ _ _ 1 _ _ (LoopInv_initial _ _ _ _) (by omega)).processed
  · exact (loop_inv env _ _ _ 1 _ _ (LoopInv_initial _ _ _ _) (by omega)).reports
  · refine cleanEvents_append _ _
      (loop_inv env _ _ _ 1 _ _ (LoopInv_initial _ _ _ _) (by omega)).cleanEvents ?_
    intro e he
    rw [List.mem_singleton.mp he]
    rfl

/-- C3: in every deep-research run, every follow-up enqueued from a node
processed at depth `d` is enqueued with depth `d + 1` and only by nodes
strictly below the clamped maximum depth (so nodes at the maximum depth
produce no follow-ups), and no node with depth greater than the clamped
`maxDepth` is ever processed. -/
theorem C3_depth_discipline (env : Deep.Env) (query : String) (options : Deep.Options) :
    (∀ f ∈ (Deep.doDeepResearch env query options).state.followUpRecords,
        f.node.depth = f.parentDepth + 1 ∧
        f.parentDepth < (min (max 1 options.depth) 5).toNat) ∧
    (∀ n ∈ (Deep.doDeepResearch env query options).state.processedNodes,
        n.depth ≤ (min (max 1 options.depth) 5).toNat) :=
  ⟨(doDeepResearch_inv env query options).followUps,
   (doDeepResearch_inv env query options).processed⟩

/-- C3 witness: the theorem applied to a concrete run that enqueues the
follow-up `"f1"` at depth 2 from the seed node at depth 1. -/
theorem C3_witness :
    ({ parentDepth := 1, node := { query := "f1", depth := 2 } } :
        Deep.FollowUpRecord).node.depth =
      ({ parentDepth := 1, node := { query := "f1", depth := 2 } } :
        Deep.FollowUpRecord).parentDepth + 1 ∧
    ({ parentDepth := 1, node := { query := "f1", depth := 2 } } :
        Deep.FollowUpRecord).parentDepth < (min (max 1 (2 : Int)) 5).toNat :=
  (C3_depth_discipline cDeepEnv "topic" { depth := 2, breadth := 3 }).1
    { parentDepth := 1, node := { query := "f1", depth := 2 } } (by decide)

/-- C9: in every deep-research run, each progress report issued when a
concurrent search+distill unit completes carries the run's clamped
total depth and a progress value equal to
`floor(min(90, 20 + 70*((currentDepth-1)/depth
+ completedQueries/totalQueries/depth)))`, where `totalQueries` counts
the generated queries discovered so far. -/
theorem C9_progress_formula (env : Deep.Env) (query : String) (options : Deep.Options) :
    ∀ (k : Nat) (h : k < (Deep.doDeepResearch env query options).state.unitReports.length),
      ((Deep.doDeepResearch env query options).state.unitReports.get ⟨k, h⟩).totalDepth =
        (min (max 1 options.depth) 5).toNat ∧
      GoodReport ((Deep.doDeepResearch env query options).state.unitReports.get ⟨k, h⟩) :=
  fun _ h => (doDeepResearch_inv env query options).reports _ (List.get_mem _ _ h)

/-- C9 witness: the theorem applied to the first unit report of a
concrete depth-2 run (its progress is
`floor(min(90, 20 + 70*(0 + 1/1/2))) = 55`). -/
theorem C9_witness :
    ((Deep.doDeepResearch cDeepEnv "topic"
          { depth := 2, breadth := 3 }).state.unitReports.get ⟨0, by decide⟩).totalDepth =
      (min (max 1 (2 : Int)) 5).toNat ∧
    GoodReport ((Deep.doDeepResearch cDeepEnv "topic"
      { depth := 2, breadth := 3 }).state.unitReports.get ⟨0, by decide⟩) :=
  C9_progress_formula cDeepEnv "topic" { depth := 2, breadth := 3 } 0 (by decide)

/-! ### Source-emission and stream-termination lemmas -/

/-- `sourceUpdateUrls` distributes over concatenation. -/
theorem sourceUpdateUrls_append (a b : List Event) :
    sourceUpdateUrls (a ++ b) = sourceUpdateUrls a ++ sourceUpdateUrls b :=
  List.filterMap_append a b _

/-- The model-processing stream yields no `source_update` frame in any
branch. -/
theorem streamProcess_urls (env : UnifiedResearchAgent.ModelEnv)
    (hostname : String → Option String) (query : String) (rawResults : List RawResult) :
    sourceUpdateUrls
      (UnifiedResearchAgent.streamProcessWithSelectedModel env hostname query
        rawResults).1 = [] := by
  unfold UnifiedResearchAgent.streamProcessWithSelectedModel
  split
  · rfl
  · dsimp only
    split
    · split <;> rfl
    · split <;> rfl

/-- Evaluation: no URL from an empty stream. -/
theorem sourceUpdateUrls_nil : sourceUpdateUrls [] = [] := rfl

/-- Evaluation: reasoning traces carry no source URL. -/
theorem sourceUpdateUrls_trace (t : String) (evs : List Event) :
    sourceUpdateUrls (Event.reasoningTrace t :: evs) = sourceUpdateUrls evs := rfl

/-- Evaluation: `search_results` frames carry no source URL. -/
theorem sourceUpdateUrls_searchResults (t : String) (evs : List Event) :
    sourceUpdateUrls (Event.searchResultsFrame t :: evs) = sourceUpdateUrls evs := rfl

/-- Evaluation: `content` frames carry no source URL. -/
theorem sourceUpdateUrls_content (t : String) (evs : List Event) :
    sourceUpdateUrls (Event.contentFrame t :: evs) = sourceUpdateUrls evs := rfl

/-- Evaluation: `error` frames carry no source URL. -/
theorem sourceUpdateUrls_error (t : String) (evs : List Event) :
    sourceUpdateUrls (Event.errorFrame t :: evs) = sourceUpdateUrls evs := rfl

/-- Evaluation: the `source_update` frames of one search's source list
carry exactly the source URLs, in order. -/
theorem sourceUpdateUrls_of_map (sources : List Source) :
    sourceUpdateUrls (sources.map (fun s => Event.sourceUpdate s.url s)) =
      sources.map Source.url := by
  induction sources with
  | nil => rfl
  | cons s rest ih =>
      show s.url :: sourceUpdateUrls (rest.map (fun s => Event.sourceUpdate s.url s)) = _
      rw [ih]
      rfl

/-- A regular-research run emits `source_update` frames only in the
success branch of its search step, one per source of the single
`searchWeb` call, in order; every other branch emits none. -/
theorem doRegularResearch_urls (env : UnifiedResearchAgent.RegularEnv) (query : String) :
    sourceUpdateUrls (UnifiedResearchAgent.doRegularResearch env query).1 = [] ∨
    sourceUpdateUrls (UnifiedResearchAgent.doRegularResearch env query).1 =
      (UnifiedResearchAgent.searchWeb env.search).sources.map Source.url := by
  unfold UnifiedResearchAgent.doRegularResearch
  dsimp only
  split <;> dsimp only <;> split <;> (try split) <;> (try split) <;>
      simp only [sourceUpdateUrls_append, streamProcess_urls, sourceUpdateUrls_nil,
        sourceUpdateUrls_trace, sourceUpdateUrls_searchResults, sourceUpdateUrls_content,
        sourceUpdateUrls_error, sourceUpdateUrls_of_map, List.append_nil, List.nil_append] <;>
    first
      | exact Or.inl trivial
      | exact Or.inr trivial

/-- C1 counterexample: a regular run whose search provider returns two
results with the same URL emits two `source_update` frames carrying that
URL — the emitted URLs are not unique, and no `visitedUrls`-based
suppression occurs. -/
theorem C1_counterexample :
    ¬ (sourceUpdateUrls (processQueryStream cAgentEnvDup "the query"
        { isDeepResearch := false })).Nodup := by
  decide

/-- C1 amended: a deep-research run emits no `sources` or
`source_update` frame at all (`visitedUrls` records URLs but is never
consulted to gate any emission), so uniqueness-by-URL across emitted
frames holds vacuously there; a regular run emits one `source_update`
frame per source of its single search, without deduplication, so the
emitted URLs are unique exactly when the provider's result URLs are
already distinct. -/
theorem C1_sources_emission (denv : Deep.Env) (q : String) (opts : Deep.Options)
    (renv : UnifiedResearchAgent.RegularEnv) (q2 : String) :
    (∀ e ∈ (Deep.doDeepResearch denv q opts).events, e.isSourcesLike = false) ∧
    (((UnifiedResearchAgent.searchWeb renv.search).sources.map Source.url).Nodup →
      (sourceUpdateUrls (UnifiedResearchAgent.doRegularResearch renv q2).1).Nodup) := by
  constructor
  · have he : (Deep.doDeepResearch denv q opts).events =
        (Deep.doDeepResearch denv q opts).state.events := rfl
    rw [he]
    exact (doDeepResearch_inv denv q opts).cleanEvents
  · intro hnd
    rcases doRegularResearch_urls renv q2 with hu | hu <;> rw [hu]
    · exact List.nodup_nil
    · exact hnd

/-- C1 witness: the amended theorem applied to a regular run whose two
result URLs are distinct. -/
theorem C1_witness :
    (sourceUpdateUrls (UnifiedResearchAgent.doRegularResearch cRegularEnvDistinct "q").1).Nodup :=
  (C1_sources_emission cDeepEnv "q" { depth := 2, breadth := 3 } cRegularEnvDistinct "q").2
    (by decide)

/-- Every deep-research run's stream contains the final-report `content`
frame. -/
theorem doDeepResearch_has_content (env : Deep.Env) (query : String)
    (options : Deep.Options) :
    ∃ e ∈ (Deep.doDeepResearch env query options).events, e.isContentFrame = true := by
  unfold Deep.doDeepResearch
  dsimp only
  exact ⟨_, List.mem_append_right _ (List.mem_singleton_self _), rfl⟩

/-- A regular-research run either escapes with an exception (flag
`true`, converted to an `error` frame by `processQueryStream`) or its
stream ends with a `content` frame or an `error` frame. -/
theorem doRegularResearch_content_or_error (env : UnifiedResearchAgent.RegularEnv)
    (query : String) :
    (UnifiedResearchAgent.doRegularResearch env query).2 = true ∨
    ∃ e ∈ (UnifiedResearchAgent.doRegularResearch env query).1,
      e.isContentFrame = true ∨ e.isErrorFrame = true := by
  unfold UnifiedResearchAgent.doRegularResearch
  dsimp only
  split
  · exact Or.inl rfl
  · dsimp only
    right
    split <;> (try split) <;> (try split) <;>
      first
        | (refine ⟨Event.errorFrame
              "Failed to generate research results. Please try again with a different query.",
            ?_, Or.inr rfl⟩
           simp
           done)
        | (refine ⟨Event.contentFrame
              (UnifiedResearchAgent.generateResearchReport query env.reportChat),
            ?_, Or.inl rfl⟩
           simp
           done)

/-- C2 counterexample: a regular run whose model-processing chat call
fails delivers a stream with no `content` or `content_chunk` frame at
all — it terminates with only error frames, refuting the claim that
every run's stream carries a complete or partial report. -/
theorem C2_counterexample :
    (processQueryStream cAgentEnvChatFail "the query" { isDeepResearch := false }).all
        (fun e => !e.isContentFrame && !e.isContentChunk) = true ∧
    processQueryStream cAgentEnvChatFail "the query" { isDeepResearch := false } ≠ [] := by
  constructor
  · decide
  · decide

/-- C2 amended: the stream never terminates bare — every run (regular or
deep) delivers a `content` frame or an explicit `error` frame.  A deep
run's normal path always streams the final report; a regular run whose
model processing fails, or accumulates no content, ends in an error
frame instead of report content. -/
theorem C2_stream_not_silent (env : AgentEnv) (query : String) (options : QueryOptions) :
    ∃ e ∈ processQueryStream env query options,
      e.isContentFrame = true ∨ e.isErrorFrame = true := by
  unfold processQueryStream
  dsimp only
  split
  · obtain ⟨e, he, hc⟩ := doDeepResearch_has_content env.deep query
      { depth := jsOrInt options.depth 2, breadth := jsOrInt options.breadth 3 }
    exact ⟨e, he, Or.inl hc⟩
  · rcases hca : UnifiedResearchAgent.doRegularResearch env.regular query with ⟨evs, b⟩
    rcases doRegularResearch_content_or_error env.regular query with h2 | ⟨e, he, hp⟩
    · rw [hca] at h2
      dsimp at h2
      subst h2
      exact ⟨Event.errorFrame "An error occurred during research. Please try again.",
        by simp, Or.inr rfl⟩
    · rw [hca] at he
      dsimp at he
      cases b
      · exact ⟨e, he, hp⟩
      · exact ⟨e, List.mem_append_left _ he, hp⟩

end DeepPlex
